import Mathlib

/-!
Verification of the AI document-processing core of the logistics backend:
the parsing orchestrator (`app/services/ai_service.py`), the provider
manager with circuit breakers (`app/services/ai_provider_manager.py`) and
the confidence scorer (`app/services/confidence_scorer.py`).

The Python code is shallowly embedded: dictionaries become association
lists over `String`, numbers become `ℚ`, Python exceptions become an
explicit `PyErr` sum threaded through `Except`, and the external AI/PDF
calls are abstracted as given outcomes.  Wall-clock reads (`time.time()`)
within a single operation are modelled by one fixed instant.
-/

namespace LogisticsAI

/-! ## Python value model -/

/-- Model of the Python values that occur in extracted-data dictionaries:
`None`, strings, numbers (int/float, as `ℚ`) and booleans. -/
inductive PyVal where
  | vNone : PyVal
  | vStr (s : String) : PyVal
  | vNum (q : ℚ) : PyVal
  | vBool (b : Bool) : PyVal
deriving DecidableEq

/-- Python truthiness: `None`, `""`, `0` and `False` are falsy. -/
def PyVal.truthy : PyVal → Bool
  | .vNone => false
  | .vStr s => s ≠ ""
  | .vNum q => q ≠ 0
  | .vBool b => b

/-- Rendering of a numeric value by Python `str`; integral values render as
their digits, non-integral values are approximated by `num/den` (no claim
here depends on the non-integral case). -/
def ratPyStr (q : ℚ) : String :=
  if q.den = 1 then toString q.num else toString q.num ++ "/" ++ toString q.den

/-- Model of Python `str(value)`. -/
def PyVal.pyStr : PyVal → String
  | .vNone => "None"
  | .vStr s => s
  | .vNum q => ratPyStr q
  | .vBool b => if b then "True" else "False"

/-! ## Dictionaries as association lists -/

/-- Python `d.get(k)` (returns `None`-ish absence as `none`). -/
def dictGet? {α : Type} : List (String × α) → String → Option α
  | [], _ => none
  | (k', v) :: rest, k => if k' = k then some v else dictGet? rest k

/-- Python `d.get(k, default)`. -/
def dictGetD {α : Type} (d : List (String × α)) (k : String) (v₀ : α) : α :=
  (dictGet? d k).getD v₀

/-- Python `k in d`. -/
def hasKey {α : Type} (d : List (String × α)) (k : String) : Bool :=
  (dictGet? d k).isSome

/-- Python `d[k] = v` (replaces the binding, appends when absent). -/
def dictSet {α : Type} : List (String × α) → String → α → List (String × α)
  | [], k, v => [(k, v)]
  | (k', v') :: rest, k, v =>
      if k' = k then (k, v) :: rest else (k', v') :: dictSet rest k v

/-! ## Python string operations (modelled over character lists) -/

/-- Python `s.lower()` (ASCII). -/
def lowerStr (s : String) : String := String.mk (s.data.map Char.toLower)

/-- Python `s.strip()`. -/
def stripStr (s : String) : String :=
  String.mk (((s.data.dropWhile Char.isWhitespace).reverse.dropWhile
      Char.isWhitespace).reverse)

/-- Python `pat in s` (substring containment). -/
def strContains (s pat : String) : Bool := decide (pat.data <:+: s.data)

/-- Python `s.startswith(pre)`. -/
def startsWithStr (s pre : String) : Bool := decide (pre.data <+: s.data)

/-- Python `s.endswith(suf)`. -/
def endsWithStr (s suf : String) : Bool := decide (suf.data <:+ s.data)

/-- Helper for Python `s.split(c)` on character lists. -/
def splitCharList (c : Char) : List Char → List (List Char)
  | [] => [[]]
  | ch :: rest =>
      let r := splitCharList c rest
      if ch = c then [] :: r
      else
        match r with
        | h :: t => (ch :: h) :: t
        | [] => [[ch]]

/-- Python `s.split(",")`-style splitting on a single character. -/
def splitChar (s : String) (c : Char) : List String :=
  (splitCharList c s.data).map String.mk

/-- Numeric value of a digit string. -/
def digitsToNat (l : List Char) : ℕ :=
  l.foldl (fun n c => n * 10 + (c.toNat - '0'.toNat)) 0

/-- Parse an unsigned decimal literal (`123`, `123.45`, `.5`, `1.`). -/
def parseUnsigned? (s : List Char) : Option ℚ :=
  match splitCharList '.' s with
  | [i] =>
      if i ≠ [] ∧ i.all Char.isDigit then some ((digitsToNat i : ℚ)) else none
  | [i, f] =>
      if (i ≠ [] ∨ f ≠ []) ∧ i.all Char.isDigit ∧ f.all Char.isDigit then
        some ((digitsToNat i : ℚ) + (digitsToNat f : ℚ) / (10 : ℚ) ^ f.length)
      else none
  | _ => none

/-- Parse a signed decimal from a string after stripping whitespace. -/
def parseSigned? (s : String) : Option ℚ :=
  let t := (stripStr s).data
  match t with
  | '-' :: rest => (parseUnsigned? rest).map (fun q => -q)
  | '+' :: rest => parseUnsigned? rest
  | _ => parseUnsigned? t

/-- Model of Python `Decimal(str(value))`: numbers pass through, decimal
strings parse, everything else (None, booleans, non-numeric strings)
raises `InvalidOperation`, modelled as `none`. -/
def pyDecimal? : PyVal → Option ℚ
  | .vNum q => some q
  | .vStr s => parseSigned? s
  | _ => none

/-- Model of Python `float(value)`: numbers pass through, booleans coerce
to 1/0, decimal strings parse, `None` and other strings raise. -/
def pyFloat? : PyVal → Option ℚ
  | .vNum q => some q
  | .vBool b => some (if b then 1 else 0)
  | .vStr s => parseSigned? s
  | .vNone => none

/-- Python `s.isdigit()`. -/
def isDigitStr (s : String) : Bool := s.data ≠ [] && s.data.all Char.isDigit

/-! ## Regex models used by the confidence scorer

The validation patterns of `ConfidenceScorer.VALIDATION_PATTERNS` are
anchored regexes over plain character classes; each is modelled by a
direct decidable predicate on the character list. -/

def isAsciiUpper (c : Char) : Bool := 'A' ≤ c && c ≤ 'Z'

def emailLocalChar (c : Char) : Bool :=
  c.isAlphanum || c = '.' || c = '_' || c = '%' || c = '+' || c = '-'

def emailDomainChar (c : Char) : Bool := c.isAlphanum || c = '.' || c = '-'

/-- Model of `^[a-zA-Z0-9._%+-]+@[a-zA-Z0-9.-]+\.[a-zA-Z]{2,}$`. -/
def matchEmail (s : String) : Bool :=
  match splitCharList '@' s.data with
  | [localPart, domain] =>
      localPart ≠ [] && localPart.all emailLocalChar &&
      (match (splitCharList '.' domain).reverse with
       | tld :: revInit =>
           tld.length ≥ 2 && tld.all Char.isAlpha &&
           revInit ≠ [] && (revInit.all (·.all emailDomainChar)) &&
           revInit.reverse.head? ≠ some []
       | [] => false)
  | _ => false

/-- Model of `^RO\d{8,10}$`. -/
def matchRomanianVat (s : String) : Bool :=
  match s.data with
  | 'R' :: 'O' :: digits =>
      digits.all Char.isDigit && 8 ≤ digits.length && digits.length ≤ 10
  | _ => false

/-- Model of `^[A-Z]{2}\d{8,12}$`. -/
def matchEuVat (s : String) : Bool :=
  match s.data with
  | c₁ :: c₂ :: digits =>
      isAsciiUpper c₁ && isAsciiUpper c₂ &&
      digits.all Char.isDigit && 8 ≤ digits.length && digits.length ≤ 12
  | _ => false

/-- Model of `^\d{6}$`. -/
def matchPostcodeRo (s : String) : Bool :=
  s.data.length = 6 && s.data.all Char.isDigit

/-! ## Numeric helpers -/

/-- Embedding of `statistics.mean` over a list of rationals (callers guard emptiness). -/
def qmean (l : List ℚ) : ℚ := l.sum / l.length

/-- Floor of a rational. -/
def ratFloor (q : ℚ) : ℤ := q.num.fdiv q.den

/-- Model of Python `f"{x:.2f}"`: round half-to-even at two decimals. -/
def formatQ2 (q : ℚ) : String :=
  let sign := if q < 0 then "-" else ""
  let a : ℚ := |q| * 100
  let fl : ℤ := ratFloor a
  let n : ℤ :=
    if a - fl > 1 / 2 then fl + 1
    else if a - fl < 1 / 2 then fl
    else if fl % 2 = 0 then fl else fl + 1
  let ip := n.toNat / 100
  let fp := n.toNat % 100
  sign ++ toString ip ++ "." ++ (if fp < 10 then "0" else "") ++ toString fp

/-- Single-quote character as a string (used inside review reasons). -/
def apos : String := (Char.ofNat 39).toString

/-- Message of the `AttributeError` raised whenever the orchestrator reads
`result.data`: the `ExtractionResult` dataclass defines `extracted_data`
(plus `confidence_scores`, `provider_used`, `processing_time` and the
`average_confidence` property) but no `data` attribute, and nothing in the
repository ever assigns one (only `result.provider` is set dynamically). -/
def noDataAttrMsg : String :=
  apos ++ "ExtractionResult" ++ apos ++ " object has no attribute " ++
    apos ++ "data" ++ apos

/-! ## Exceptions -/

/-- The Python exceptions that flow through this core. -/
inductive PyErr where
  | circuitBreakerOpen (msg : String) : PyErr
  | noHealthyProviders (msg : String) : PyErr
  | allProvidersFailed (last : Option PyErr) : PyErr
  | preprocessingFailed (msg : String) : PyErr
  | providerError (msg : String) : PyErr
  | attributeError (msg : String) : PyErr
  | keyError (msg : String) : PyErr
  | typeError (msg : String) : PyErr
  | unboundLocal (name : String) : PyErr

/-- Model of Python `str(e)` for the exceptions above. -/
def PyErr.message : PyErr → String
  | .circuitBreakerOpen m => m
  | .noHealthyProviders m => m
  | .allProvidersFailed last =>
      "All providers failed after 3 attempts. Last error: " ++
        (match last with
         | some e => e.message
         | none => "None")
  | .preprocessingFailed m => m
  | .providerError m => m
  | .attributeError m => m
  | .keyError m => m
  | .typeError m => m
  | .unboundLocal n =>
      "cannot access local variable " ++ n ++
        " where it is not associated with a value"

/-! ## Schemas (`app/schemas/ai.py`) -/

/-- Embedding of `ExtractionResult`: output of one provider call.  The `provider` field
models the attribute assigned dynamically by the provider manager
(`result.provider = provider_name`). -/
structure ExtractionResult where
  extracted_data : List (String × PyVal)
  confidence_scores : List (String × ℚ)
  provider_used : String
  processing_time : ℚ
  provider : Option String := none
deriving DecidableEq

/-- Embedding of `ExtractionResult.average_confidence`. -/
def ExtractionResult.averageConfidence (r : ExtractionResult) : ℚ :=
  if r.confidence_scores.isEmpty then 0
  else (r.confidence_scores.map (fun p => p.2)).sum / r.confidence_scores.length

/-- Embedding of `DocumentParsingResult` (`app/services/ai_service.py`).  The metadata
dictionary is reduced to its string entries; timestamps are abstracted. -/
structure DocumentParsingResult where
  extracted_data : List (String × PyVal)
  confidence_scores : List (String × ℚ)
  provider_used : String
  processing_time : ℚ
  validation_errors : List String
  metadata : List (String × String)
  requires_manual_review : Bool := false
deriving DecidableEq

/-! ## Parsing orchestrator (`AIDocumentParser`, `app/services/ai_service.py`) -/

/-- Embedding of `AIDocumentParser.critical_fields`. -/
def criticalFields : List String :=
  ["client_company_name", "client_vat_number", "client_offered_price",
   "pickup_address", "delivery_address"]

/-- Embedding of `AIDocumentParser.confidence_threshold`. -/
def confidenceThreshold : ℚ := 0.85

/-- Embedding of `AIDocumentParser._validate_romanian_vat_format`: keep the digits of
`str(vat)` and require between 2 and 10 of them. -/
def validateRomanianVatFormat (vat : PyVal) : Bool :=
  let cleanVat := vat.pyStr.data.filter Char.isDigit
  2 ≤ cleanVat.length && cleanVat.length ≤ 10

/-- Embedding of `AIDocumentParser._detect_data_anomalies`
(`ai_service.py:199-224`).  Its first statement (line 202) is
`data = result.data`, and `ExtractionResult` has no `data` attribute, so
every call raises `AttributeError` at once; the anomaly heuristics below
that line (price range, missing criticals, VAT shape) are dead code and
never execute. -/
def detectDataAnomalies (_result : ExtractionResult) : Except PyErr Bool :=
  .error (.attributeError noDataAttrMsg)

/-- Embedding of `AIDocumentParser._needs_secondary_validation`
(`ai_service.py:177-197`): the two confidence checks return `True` early;
when both pass, control reaches `_detect_data_anomalies`, which always
raises (there is no `try` here, so the exception propagates). -/
def needsSecondaryValidation (result : ExtractionResult) :
    Except PyErr Bool :=
  if criticalFields.any (fun f =>
      decide (dictGetD result.confidence_scores f 0 < confidenceThreshold)) then
    .ok true
  else if result.averageConfidence < 0.8 then .ok true
  else
    match detectDataAnomalies result with
    | .ok b => if b then .ok true else .ok false
    | .error e => .error e

/-- Embedding of `AIDocumentParser._merge_extraction_results`
(`ai_service.py:236-270`).  Its first executable statement (line 244)
evaluates `set(primary.data.keys()) | set(secondary.data.keys())`, and
`ExtractionResult` has no `data` attribute, so every call raises
`AttributeError`; the per-field confidence-weighted merge described below
that line is dead code and the function never returns a merged result. -/
def mergeExtractionResults (_primary _secondary : ExtractionResult) :
    Except PyErr ExtractionResult :=
  .error (.attributeError noDataAttrMsg)

/-- Embedding of `AIDocumentParser._validate_business_rules`. -/
def validateBusinessRules (data : List (String × PyVal)) : List String :=
  let requiredErrors := criticalFields.filterMap (fun f =>
    if (dictGetD data f .vNone).truthy then none
    else some ("Missing required field: " ++ f))
  let priceErrors :=
    match dictGetD data "client_offered_price" .vNone with
    | .vNone => []
    | price =>
        match pyFloat? price with
        | none => ["Client price is not a valid number"]
        | some p =>
            if p ≤ 0 then ["Client price must be positive"]
            else if p < 50 then
              ["Client price seems too low for transport order"]
            else if p > 100000 then
              ["Client price seems too high for typical transport order"]
            else []
  let vat := dictGetD data "client_vat_number" .vNone
  let vatErrors :=
    if vat.truthy && !validateRomanianVatFormat vat then
      ["Invalid Romanian VAT number format"]
    else []
  requiredErrors ++ priceErrors ++ vatErrors

/-- Embedding of `AIDocumentParser._post_process_result`
(`ai_service.py:272-310`).  Its first statement (line 277) evaluates
`result.data` as the argument of `_validate_business_rules`, and
`ExtractionResult` has no `data` attribute, so every call raises
`AttributeError` immediately — before the line-280 call to
`ConfidenceScorer.calculate_confidence_scores` (itself a method that does
not exist) could ever be reached. -/
def postProcessResult (_result : ExtractionResult) :
    Except PyErr DocumentParsingResult :=
  .error (.attributeError noDataAttrMsg)

/-- Embedding of `AIDocumentParser._create_error_result` (the `failed_at` timestamp in
the metadata is abstracted away). -/
def createErrorResult (pdfPath errorMessage : String) (elapsed : ℚ) :
    DocumentParsingResult :=
  { extracted_data := [],
    confidence_scores := [],
    provider_used := "none",
    processing_time := elapsed,
    validation_errors := ["Parsing failed: " ++ errorMessage],
    metadata := [("pdf_path", pdfPath), ("error", errorMessage)],
    requires_manual_review := true }

/-- Outcomes of the external collaborators for one `parse_document` run:
the PDF preprocessing step, the primary provider-manager call and the
secondary (escalation) provider-manager call, plus the wall-clock span. -/
structure DocBehavior where
  pdf_path : String
  preprocessing : Except PyErr Unit
  primary : Except PyErr ExtractionResult
  secondary : Except PyErr ExtractionResult
  elapsed : ℚ

/-- Embedding of `AIDocumentParser._validate_and_enhance`
(`ai_service.py:144-175`).  The `_needs_secondary_validation` call sits
outside the `try`, so an exception there propagates; inside the `try`,
any failure of the secondary call or of `_merge_extraction_results`
(which always raises at `primary.data`) is caught and the primary result
is returned unchanged. -/
def validateAndEnhance (primary : ExtractionResult)
    (secondary : Except PyErr ExtractionResult) :
    Except PyErr ExtractionResult :=
  match needsSecondaryValidation primary with
  | .error e => .error e
  | .ok needed =>
      if !needed then .ok primary
      else
        match secondary with
        | .ok s =>
            match mergeExtractionResults primary s with
            | .ok merged => .ok merged
            | .error _ => .ok primary
        | .error _ => .ok primary

/-- Body of the `try` block of `AIDocumentParser.parse_document`
(steps 1–4). -/
def parsePipeline (b : DocBehavior) : Except PyErr DocumentParsingResult := do
  let _ ← b.preprocessing
  let primary ← b.primary
  let finalResult ← validateAndEnhance primary b.secondary
  postProcessResult finalResult

/-- Embedding of `AIDocumentParser.parse_document`: the public entry point; any
exception from the pipeline is caught and converted by
`_create_error_result`. -/
def parseDocument (b : DocBehavior) : DocumentParsingResult :=
  match parsePipeline b with
  | .ok r => r
  | .error e => createErrorResult b.pdf_path e.message b.elapsed

/-! ## Confidence scorer (`app/services/confidence_scorer.py`) -/

/-- Embedding of `FieldConfidence`. -/
structure FieldConfidence where
  field_name : String
  value : PyVal
  confidence : ℚ
  reasons : List String
  validation_passed : Bool
deriving DecidableEq

/-- Embedding of `DocumentConfidence`. -/
structure DocumentConfidence where
  overall_confidence : ℚ
  field_confidences : List (String × FieldConfidence)
  critical_fields_confidence : ℚ
  manual_review_required : Bool
  review_reasons : List String
deriving DecidableEq

/-- Embedding of `ConfidenceScorer.CRITICAL_FIELDS` (a Python set; same five fields as
the orchestrator's list). -/
def scorerCriticalFields : List String :=
  ["client_company_name", "client_vat_number", "client_offered_price",
   "pickup_address", "delivery_address"]

/-- Embedding of `ConfidenceScorer._validate_field_format`. -/
def validateFieldFormat (fieldName : String) (value : PyVal) :
    ℚ × List String :=
  if !value.truthy || value == .vStr "" then
    (0.0, [fieldName ++ ": Empty value"])
  else
    let valueStr := stripStr value.pyStr
    if endsWithStr fieldName "_email" || strContains (lowerStr fieldName) "email" then
      if matchEmail valueStr then (0.95, [fieldName ++ ": Valid email format"])
      else (0.2, [fieldName ++ ": Invalid email format"])
    else if strContains (lowerStr fieldName) "vat" then
      if matchRomanianVat valueStr then
        (0.9, [fieldName ++ ": Valid Romanian VAT format"])
      else if matchEuVat valueStr then
        (0.85, [fieldName ++ ": Valid EU VAT format"])
      else (0.3, [fieldName ++ ": Invalid VAT format"])
    else if strContains (lowerStr fieldName) "price" ||
        strContains (lowerStr fieldName) "cost" then
      match pyDecimal? value with
      | some priceVal =>
          if priceVal > 0 then (0.9, [fieldName ++ ": Valid price format"])
          else (0.4, [fieldName ++ ": Price must be positive"])
      | none => (0.2, [fieldName ++ ": Invalid price format"])
    else if strContains (lowerStr fieldName) "address" then
      if valueStr.data.length ≥ 10 && valueStr.data.any Char.isDigit then
        (0.8, [fieldName ++ ": Reasonable address format"])
      else (0.5, [fieldName ++ ": Questionable address format"])
    else if strContains (lowerStr fieldName) "postcode" then
      if matchPostcodeRo valueStr then
        (0.9, [fieldName ++ ": Valid Romanian postcode"])
      else if isDigitStr valueStr && valueStr.data.length ≥ 4 then
        (0.7, [fieldName ++ ": Valid international postcode format"])
      else (0.4, [fieldName ++ ": Invalid postcode format"])
    else if strContains (lowerStr fieldName) "company" then
      if valueStr.data.length ≥ 3 && valueStr.data.any Char.isAlpha then
        (0.8, [fieldName ++ ": Reasonable company name"])
      else (0.4, [fieldName ++ ": Questionable company name"])
    else if valueStr.data.length ≥ 2 then
      (0.7, [fieldName ++ ": Non-empty value"])
    else (0.3, [fieldName ++ ": Very short value"])

/-- Embedding of `ConfidenceScorer._validate_business_rules` (per-field). -/
def validateScorerBusinessRules (fieldName : String) (value : PyVal) :
    ℚ × List String :=
  if strContains (lowerStr fieldName) "price" then
    match pyDecimal? value with
    | some price =>
        if 100 ≤ price ∧ price ≤ 50000 then
          (0.9, [fieldName ++ ": Price in reasonable range"])
        else if price < 100 then
          (0.6, [fieldName ++ ": Price seems low for transport"])
        else (0.5, [fieldName ++ ": Price seems high for transport"])
    | none => (0.3, [fieldName ++ ": Cannot validate price range"])
  else if strContains (lowerStr fieldName) "date" then
    (0.8, [fieldName ++ ": Date format acceptable"])
  else if fieldName = "cargo_weight_kg" ∨ fieldName = "cargo_ldm" then
    match pyFloat? value with
    | some v =>
        if 1 ≤ v ∧ v ≤ 25000 then
          (0.9, [fieldName ++ ": Value in reasonable range"])
        else (0.5, [fieldName ++ ": Value outside typical range"])
    | none => (0.4, [fieldName ++ ": Invalid numeric value"])
  else (0.7, [fieldName ++ ": No specific business rules violated"])

/-- Embedding of `ConfidenceScorer._validate_field_consistency`. -/
def validateFieldConsistency (fieldName : String) (value : PyVal)
    (fullData : List (String × PyVal)) : ℚ × List String :=
  if fieldName = "pickup_city" ∧ hasKey fullData "delivery_city" then
    let pickupCity := stripStr (lowerStr value.pyStr)
    let deliveryCity :=
      stripStr (lowerStr (dictGetD fullData "delivery_city" .vNone).pyStr)
    if pickupCity = deliveryCity then
      (0.6, [fieldName ++ ": Same pickup and delivery city (unusual)"])
    else (0.9, [fieldName ++ ": Different pickup/delivery cities"])
  else if fieldName = "client_vat_number" ∧
      hasKey fullData "client_company_name" then
    let vat := stripStr value.pyStr
    let company :=
      stripStr (dictGetD fullData "client_company_name" .vNone).pyStr
    if startsWithStr vat "RO" && company.data.length > 0 then
      (0.8, [fieldName ++ ": VAT and company both present"])
    else (0.6, [fieldName ++ ": VAT/company consistency unclear"])
  else (0.8, [fieldName ++ ": No consistency issues detected"])

/-- Weight table of `ConfidenceScorer._calculate_weighted_confidence`. -/
def factorWeight (factorType : String) : ℚ :=
  if factorType = "ai_provider" then 0.3
  else if factorType = "format_validation" then 0.35
  else if factorType = "business_rules" then 0.2
  else if factorType = "consistency" then 0.15
  else 0.1

/-- Embedding of `ConfidenceScorer._calculate_weighted_confidence`. -/
def calculateWeightedConfidence (confidenceFactors : List (String × ℚ)) : ℚ :=
  if confidenceFactors.isEmpty then 0.5
  else
    let weightedSum :=
      (confidenceFactors.map (fun p => p.2 * factorWeight p.1)).sum
    let totalWeight := (confidenceFactors.map (fun p => factorWeight p.1)).sum
    min 1 (if totalWeight > 0 then weightedSum / totalWeight else 0.5)

/-- Embedding of `ConfidenceScorer._score_field`. -/
def scoreField (fieldName : String) (value : PyVal)
    (aiScores : Option (List (String × ℚ)))
    (fullData : List (String × PyVal)) : FieldConfidence :=
  let baseConfidence :=
    match aiScores with
    | some m => dictGetD m fieldName 0.5
    | none => 0.5
  let fmt := validateFieldFormat fieldName value
  let biz := validateScorerBusinessRules fieldName value
  let cons := validateFieldConsistency fieldName value fullData
  let confidenceFactors :=
    [("ai_provider", baseConfidence), ("format_validation", fmt.1),
     ("business_rules", biz.1), ("consistency", cons.1)]
  let finalConfidence := calculateWeightedConfidence confidenceFactors
  { field_name := fieldName,
    value := value,
    confidence := finalConfidence,
    reasons := fmt.2 ++ biz.2 ++ cons.2,
    validation_passed := decide (finalConfidence ≥ 0.6) }

/-- Embedding of `ConfidenceScorer._calculate_overall_confidence`. -/
def calculateOverallConfidence
    (fieldConfidences : List (String × FieldConfidence)) : ℚ :=
  if fieldConfidences.isEmpty then 0.3
  else
    let criticalScores :=
      (fieldConfidences.filter (fun p => scorerCriticalFields.contains p.1)).map
        (fun p => p.2.confidence)
    let nonCriticalScores :=
      (fieldConfidences.filter
          (fun p => !scorerCriticalFields.contains p.1)).map
        (fun p => p.2.confidence)
    let criticalAvg := if criticalScores.isEmpty then 0.5 else qmean criticalScores
    let nonCriticalAvg :=
      if nonCriticalScores.isEmpty then 0.7 else qmean nonCriticalScores
    min 1 (criticalAvg * 0.7 + nonCriticalAvg * 0.3)

/-- Embedding of `ConfidenceScorer._calculate_critical_fields_confidence`. -/
def calculateCriticalFieldsConfidence
    (fieldConfidences : List (String × FieldConfidence)) : ℚ :=
  let criticalScores :=
    (fieldConfidences.filter (fun p => scorerCriticalFields.contains p.1)).map
      (fun p => p.2.confidence)
  if criticalScores.isEmpty then 0.5 else qmean criticalScores

/-- Embedding of `ConfidenceScorer._assess_manual_review_need`. -/
def assessManualReviewNeed
    (fieldConfidences : List (String × FieldConfidence))
    (overallConfidence criticalConfidence : ℚ) : Bool × List String :=
  let r₁ :=
    if criticalConfidence < 0.7 then
      ["Critical fields confidence too low: " ++ formatQ2 criticalConfidence]
    else []
  let r₂ :=
    if overallConfidence < 0.6 then
      ["Overall confidence too low: " ++ formatQ2 overallConfidence]
    else []
  let r₃ :=
    (fieldConfidences.filter (fun p =>
        scorerCriticalFields.contains p.1 && decide (p.2.confidence < 0.5))).map
      (fun p =>
        "Critical field " ++ apos ++ p.1 ++ apos ++
          " has very low confidence: " ++ formatQ2 p.2.confidence)
  let failedValidations :=
    (fieldConfidences.filter (fun p =>
        !p.2.validation_passed && scorerCriticalFields.contains p.1)).map
      (fun p => p.1)
  let r₄ :=
    if failedValidations.isEmpty then []
    else
      ["Critical fields failed validation: " ++
        String.intercalate ", " failedValidations]
  let reasons := r₁ ++ r₂ ++ r₃ ++ r₄
  (!reasons.isEmpty, reasons)

/-- Embedding of `ConfidenceScorer.score_extraction`.  All the operations of the happy
path are total in the embedding, so the defensive `except` branch of the
source (overall 0.3, review required) is unreachable here. -/
def scoreExtraction (extractedData : List (String × PyVal))
    (aiConfidenceScores : Option (List (String × ℚ))) : DocumentConfidence :=
  let fieldConfidences := extractedData.map (fun p =>
    (p.1, scoreField p.1 p.2 aiConfidenceScores extractedData))
  let overallConfidence := calculateOverallConfidence fieldConfidences
  let criticalConfidence := calculateCriticalFieldsConfidence fieldConfidences
  let assessed :=
    assessManualReviewNeed fieldConfidences overallConfidence criticalConfidence
  { overall_confidence := overallConfidence,
    field_confidences := fieldConfidences,
    critical_fields_confidence := criticalConfidence,
    manual_review_required := assessed.1,
    review_reasons := assessed.2 }

/-! ## Provider manager (`app/services/ai_provider_manager.py`) -/

/-- Embedding of `CircuitBreakerState` (`opened` models `OPEN`). -/
inductive CBState where
  | closed : CBState
  | opened : CBState
  | halfOpen : CBState
deriving DecidableEq

/-- Embedding of `CircuitBreaker` (defaults from `__init__`). -/
structure CircuitBreaker where
  failure_threshold : ℕ := 5
  recovery_timeout : ℚ := 60
  failure_count : ℕ := 0
  last_failure_time : Option ℚ := none
  state : CBState := .closed
deriving DecidableEq

/-- Body of the `try` block of `CircuitBreaker.call`: the wrapped call's
outcome is given, success resets the breaker only out of `HALF_OPEN`,
failure counts up and may trip the breaker open. -/
def CircuitBreaker.attempt {α : Type} (cb : CircuitBreaker) (now : ℚ)
    (outcome : Except PyErr α) : Except PyErr α × CircuitBreaker :=
  match outcome with
  | .ok r =>
      if cb.state = .halfOpen then
        (.ok r, { cb with state := .closed, failure_count := 0 })
      else (.ok r, cb)
  | .error e =>
      let count := cb.failure_count + 1
      (.error e,
        { cb with
            failure_count := count,
            last_failure_time := some now,
            state := if count ≥ cb.failure_threshold then .opened else cb.state })

/-- Embedding of `CircuitBreaker.call`: while `OPEN`, reject until the recovery timeout
elapses, then probe in `HALF_OPEN`.  (An `OPEN` breaker with no recorded
failure time would make the source subtract `None` from a float, a
`TypeError`.) -/
def CircuitBreaker.call {α : Type} (cb : CircuitBreaker) (now : ℚ)
    (outcome : Except PyErr α) : Except PyErr α × CircuitBreaker :=
  if cb.state = .opened then
    match cb.last_failure_time with
    | some t =>
        if now - t > cb.recovery_timeout then
          CircuitBreaker.attempt { cb with state := .halfOpen } now outcome
        else (.error (.circuitBreakerOpen "Provider circuit breaker is open"), cb)
    | none =>
        (.error (.typeError
          "unsupported operand type for float and NoneType"), cb)
  else CircuitBreaker.attempt cb now outcome

/-- Embedding of `ProviderMetrics`. -/
structure ProviderMetrics where
  success_rate : ℚ
  avg_response_time : ℚ
  avg_quality_score : ℚ
  cost_per_request : ℚ
  total_requests : ℕ
  last_success : ℚ
  last_failure : Option ℚ := none
deriving DecidableEq

/-- State of an `AIProviderManager`: the configured provider names in
iteration order, with their circuit breakers and metrics. -/
structure MgrState where
  providers : List String
  circuit_breakers : List (String × CircuitBreaker)
  metrics : List (String × ProviderMetrics)
deriving DecidableEq

/-- Embedding of `AIProviderManager._is_provider_healthy`. -/
def isProviderHealthy (st : MgrState) (name : String) : Bool :=
  (match dictGet? st.circuit_breakers name with
   | some cb => !(cb.state = .opened)
   | none => true) &&
  (match dictGet? st.metrics name with
   | some m => !(decide (m.success_rate < 0.5))
   | none => true)

/-- Composite score of `AIProviderManager._select_balanced_provider`. -/
def balancedScore (m : ProviderMetrics) : ℚ :=
  m.avg_quality_score * 0.3 +
    max 0 (1 - m.avg_response_time / 120) * 0.2 +
    max 0 (1 - m.cost_per_request / 0.20) * 0.2 +
    m.success_rate * 0.3

/-- Loop of `AIProviderManager._select_balanced_provider`: keep the
candidate whose score strictly beats the best so far (missing metrics
would raise `KeyError` in the source). -/
def selectBalancedGo (st : MgrState) :
    List String → Option String → ℚ → Except PyErr (Option String)
  | [], bestProvider, _ => .ok bestProvider
  | p :: rest, bestProvider, bestScore =>
      match dictGet? st.metrics p with
      | none => .error (.keyError p)
      | some m =>
          let compositeScore := balancedScore m
          if compositeScore > bestScore then
            selectBalancedGo st rest (some p) compositeScore
          else selectBalancedGo st rest bestProvider bestScore

/-- Embedding of `AIProviderManager._select_balanced_provider`. -/
def selectBalancedProvider (st : MgrState) (availableProviders : List String) :
    Except PyErr (Option String) :=
  selectBalancedGo st availableProviders none (-1)

/-- Pure form of the balanced-selection loop, over an arbitrary score
function (used to relate the loop to its specification). -/
def selectBalancedCore (score : String → ℚ) :
    List String → Option String → ℚ → Option String
  | [], bestProvider, _ => bestProvider
  | p :: rest, bestProvider, bestScore =>
      if score p > bestScore then selectBalancedCore score rest (some p) (score p)
      else selectBalancedCore score rest bestProvider bestScore

/-- Modelled from the spec: the balanced policy returns the first provider
in iteration order whose composite score is maximal (ties broken in favour
of the earlier provider). -/
def specBalancedChoice (score : String → ℚ) (availableProviders : List String) :
    Option String :=
  availableProviders.find? (fun p =>
    availableProviders.all (fun q => decide (score q ≤ score p)))

/-- Python `min(xs, key=...)`: first element whose key is strictly below
the best so far. -/
def pyArgMinGo (st : MgrState) (key : ProviderMetrics → ℚ) :
    List String → String → ℚ → Except PyErr String
  | [], best, _ => .ok best
  | p :: rest, best, bestKey =>
      match dictGet? st.metrics p with
      | none => .error (.keyError p)
      | some m =>
          if key m < bestKey then pyArgMinGo st key rest p (key m)
          else pyArgMinGo st key rest best bestKey

/-- Python `max(xs, key=...)`: first element whose key strictly exceeds
the best so far. -/
def pyArgMaxGo (st : MgrState) (key : ProviderMetrics → ℚ) :
    List String → String → ℚ → Except PyErr String
  | [], best, _ => .ok best
  | p :: rest, best, bestKey =>
      match dictGet? st.metrics p with
      | none => .error (.keyError p)
      | some m =>
          if key m > bestKey then pyArgMaxGo st key rest p (key m)
          else pyArgMaxGo st key rest best bestKey

/-- Python `min`/`max` over a provider list with a metrics key. -/
def pyExtremeBy (st : MgrState) (isMin : Bool) (key : ProviderMetrics → ℚ) :
    List String → Except PyErr String
  | [] => .error (.typeError "arg is an empty sequence")
  | p :: rest =>
      match dictGet? st.metrics p with
      | none => .error (.keyError p)
      | some m =>
          if isMin then pyArgMinGo st key rest p (key m)
          else pyArgMaxGo st key rest p (key m)

/-- Embedding of `AIProviderManager._select_provider`.  The balanced branch returns the
loop's `Option` result unchanged (the source returns `best_provider`,
which is `None` when no score beats the initial `-1`). -/
def selectProvider (st : MgrState) (priority : String)
    (excludeProvider : Option String) : Except PyErr (Option String) :=
  let excluded :=
    match excludeProvider with
    | none => []
    | some s => splitChar s ','
  let healthyProviders := st.providers.filter (fun name =>
    !excluded.contains name && isProviderHealthy st name)
  if healthyProviders.isEmpty then
    .error (.noHealthyProviders "No healthy providers available")
  else if priority = "cost" then
    (pyExtremeBy st true (fun m => m.cost_per_request) healthyProviders).map some
  else if priority = "speed" then
    (pyExtremeBy st true (fun m => m.avg_response_time) healthyProviders).map some
  else if priority = "quality" then
    (pyExtremeBy st false (fun m => m.avg_quality_score) healthyProviders).map some
  else selectBalancedProvider st healthyProviders

/-- Embedding of `AIProviderManager._update_metrics` (exponential moving averages with
`alpha = 0.1`; `self.metrics[name]` raises `KeyError` when absent). -/
def updateMetrics (st : MgrState) (name : String) (success : Bool)
    (responseTime qualityScore now : ℚ) : Except PyErr MgrState :=
  match dictGet? st.metrics name with
  | none => .error (.keyError name)
  | some m =>
      let alpha : ℚ := 0.1
      let m := { m with total_requests := m.total_requests + 1 }
      let m :=
        if success then
          { m with success_rate := (1 - alpha) * m.success_rate + alpha * 1,
                   last_success := now }
        else
          { m with success_rate := (1 - alpha) * m.success_rate + alpha * 0,
                   last_failure := some now }
      let m :=
        { m with avg_response_time :=
            (1 - alpha) * m.avg_response_time + alpha * responseTime }
      let m :=
        if success && decide (qualityScore > 0) then
          { m with avg_quality_score :=
              (1 - alpha) * m.avg_quality_score + alpha * qualityScore }
        else m
      .ok { st with metrics := dictSet st.metrics name m }

/-- One iteration of the retry loop of `AIProviderManager.parse_document`.
`inl` is a final outcome (either a successful result or an exception that
escapes the loop); `inr (st, exclude, e, provName, startTime)` means the
`except` block completed and the loop continues with the next attempt.
`provName`/`startTime` model the Python local variables `provider_name`
and `start_time`, which the `except` block reads even though the first
iteration may reach it before they were ever assigned — in that case the
read raises `UnboundLocalError`, an exception the source never catches. -/
def managerStep (outcome : String → Except PyErr ExtractionResult) (now : ℚ)
    (priority : String) (st : MgrState) (excludeProvider : Option String)
    (provName : Option String) (startTime : Option ℚ) :
    (Except PyErr ExtractionResult × MgrState) ⊕
      (MgrState × Option String × PyErr × Option String × Option ℚ) :=
  -- the except block: needs provider_name (and start_time) to be bound
  let handleFailure := fun (st : MgrState) (provName : Option String)
      (startTime : Option ℚ) (e : PyErr) =>
    match provName with
    | none => Sum.inl ((.error (.unboundLocal "provider_name"), st))
    | some name =>
        match startTime with
        | none => Sum.inl ((.error (.unboundLocal "start_time"), st))
        | some t₀ =>
            match updateMetrics st name false (now - t₀) 0 now with
            | .error e₂ => Sum.inl ((.error e₂, st))
            | .ok st' =>
                let exclude' :=
                  match excludeProvider with
                  | none => some name
                  | some s => some (s ++ "," ++ name)
                Sum.inr (st', exclude', e, some name, some t₀)
  match selectProvider st priority excludeProvider with
  | .error e => handleFailure st provName startTime e
  | .ok none =>
      -- `self.providers[None]` raises `KeyError` inside the try block
      handleFailure st provName startTime (.keyError "None")
  | .ok (some name) =>
      match dictGet? st.circuit_breakers name with
      | none => handleFailure st (some name) startTime (.keyError name)
      | some cb =>
          let called := cb.call now (outcome name)
          let st := { st with
            circuit_breakers := dictSet st.circuit_breakers name called.2 }
          match called.1 with
          | .error e => handleFailure st (some name) (some now) e
          | .ok r =>
              match updateMetrics st name true (now - now)
                  r.averageConfidence now with
              | .error e₂ => handleFailure st (some name) (some now) e₂
              | .ok st' => Sum.inl ((.ok { r with provider := some name }, st'))

/-- The retry loop of `AIProviderManager.parse_document`, with
`attemptsLeft` counting the remaining iterations of
`while attempts < max_retries`. -/
def managerParseLoop (outcome : String → Except PyErr ExtractionResult)
    (now : ℚ) (priority : String) :
    ℕ → MgrState → Option String → Option PyErr → Option String → Option ℚ →
      Except PyErr ExtractionResult × MgrState
  | 0, st, _, lastException, _, _ =>
      (.error (.allProvidersFailed lastException), st)
  | n + 1, st, excludeProvider, _lastException, provName, startTime =>
      match managerStep outcome now priority st excludeProvider provName
          startTime with
      | .inl done => done
      | .inr (st', exclude', e, provName', startTime') =>
          managerParseLoop outcome now priority n st' exclude' (some e)
            provName' startTime'

/-- Embedding of `AIProviderManager.parse_document` (`max_retries = 3`). -/
def managerParse (st : MgrState)
    (outcome : String → Except PyErr ExtractionResult) (now : ℚ)
    (priority : String) (excludeProvider : Option String) :
    Except PyErr ExtractionResult × MgrState :=
  managerParseLoop outcome now priority 3 st excludeProvider none none none

/-! ## Concrete inputs used by witnesses and counterexamples -/

/-- Extracted data of spec scenario A: all five critical fields present,
price 1500, well-formed Romanian VAT identifier. -/
def scenarioAData : List (String × PyVal) :=
  [("client_company_name", .vStr "ACME Logistics SRL"),
   ("client_vat_number", .vStr "RO12345678"),
   ("client_offered_price", .vNum 1500),
   ("pickup_address", .vStr "Str. Aviatorilor 10, Bucuresti"),
   ("delivery_address", .vStr "Hauptstrasse 5, Berlin")]

/-- Primary extraction result of spec scenario A: per-field confidence
0.95 on every critical field. -/
def scenarioAResult : ExtractionResult :=
  { extracted_data := scenarioAData,
    confidence_scores :=
      [("client_company_name", 0.95), ("client_vat_number", 0.95),
       ("client_offered_price", 0.95), ("pickup_address", 0.95),
       ("delivery_address", 0.95)],
    provider_used := "openai_gpt4v",
    processing_time := 2,
    provider := some "openai" }

/-- Orchestrator-run behaviour for scenario A: preprocessing and primary
extraction succeed (the secondary outcome is irrelevant because no
escalation happens). -/
def scenarioABehavior : DocBehavior :=
  { pdf_path := "transport_order.pdf",
    preprocessing := .ok (),
    primary := .ok scenarioAResult,
    secondary := .error (.providerError "unused"),
    elapsed := 3 }

/-- Extraction result with every critical-field confidence exactly 0.85
and average confidence exactly 0.80 (boundary case for escalation). -/
def boundaryResult : ExtractionResult :=
  { extracted_data := scenarioAData,
    confidence_scores :=
      [("client_company_name", 0.85), ("client_vat_number", 0.85),
       ("client_offered_price", 0.85), ("pickup_address", 0.85),
       ("delivery_address", 0.85), ("special_requirements", 0.55)],
    provider_used := "openai_gpt4v",
    processing_time := 2 }

/-- Extraction result where one critical field has confidence 0.84. -/
def lowBoundaryResult : ExtractionResult :=
  { extracted_data := scenarioAData,
    confidence_scores := [("client_company_name", 0.84)],
    provider_used := "openai_gpt4v",
    processing_time := 2 }

/-- Primary result for the merge witness. -/
def mergePrimary : ExtractionResult :=
  { extracted_data :=
      [("client_offered_price", .vNum 1500),
       ("pickup_address", .vStr "Str. Aviatorilor 10, Bucuresti")],
    confidence_scores :=
      [("client_offered_price", 0.9), ("pickup_address", 0.8)],
    provider_used := "openai_gpt4v",
    processing_time := 1 }

/-- Secondary result for the merge witness: shares one field (with higher
confidence and a different value) and brings one new field. -/
def mergeSecondary : ExtractionResult :=
  { extracted_data :=
      [("client_offered_price", .vNum 1600),
       ("delivery_address", .vStr "Hauptstrasse 5, Berlin")],
    confidence_scores :=
      [("client_offered_price", 0.95), ("delivery_address", 0.7)],
    provider_used := "claude_sonnet",
    processing_time := 2 }

/-- Single-field extraction whose provider-reported confidence is far
outside `[0, 1]` (the counterexample input for the bounds claim). -/
def negativeAiData : List (String × PyVal) :=
  [("client_company_name", .vStr "ACME SRL")]

/-- Provider-reported confidences containing `-10`. -/
def negativeAiScores : List (String × ℚ) := [("client_company_name", -10)]

/-- Well-behaved provider confidences for the same single-field input. -/
def goodAiScores : List (String × ℚ) := [("client_company_name", 0.95)]

/-- Extraction with an ill-formed critical VAT field and provider
confidence 0 (drives the manual-review witness). -/
def lowVatData : List (String × PyVal) := [("client_vat_number", .vStr "bad")]

/-- Provider confidences for `lowVatData`. -/
def lowVatScores : List (String × ℚ) := [("client_vat_number", 0)]

/-- A tripped-open circuit breaker whose recovery window has not elapsed
at instant 1000. -/
def openBreaker : CircuitBreaker :=
  { failure_threshold := 5, recovery_timeout := 60, failure_count := 5,
    last_failure_time := some 1000, state := .opened }

/-- Initial metrics installed for the OpenAI provider by
`AIProviderManager._initialize_providers`. -/
def initialOpenAIMetrics : ProviderMetrics :=
  { success_rate := 1.0, avg_response_time := 30.0,
    avg_quality_score := 0.9, cost_per_request := 0.08,
    total_requests := 0, last_success := 1000 }

/-- Initial metrics installed for the Claude provider by
`AIProviderManager._initialize_providers`. -/
def initialClaudeMetrics : ProviderMetrics :=
  { success_rate := 1.0, avg_response_time := 25.0,
    avg_quality_score := 0.85, cost_per_request := 0.06,
    total_requests := 0, last_success := 1000 }

/-- Manager with both configured providers tripped open: no eligible
provider exists before any attempt (spec scenario C). -/
def allOpenMgrState : MgrState :=
  { providers := ["openai", "claude"],
    circuit_breakers := [("openai", openBreaker), ("claude", openBreaker)],
    metrics :=
      [("openai", initialOpenAIMetrics), ("claude", initialClaudeMetrics)] }

/-- Manager fresh out of `_initialize_providers` with both providers. -/
def freshMgrState : MgrState :=
  { providers := ["openai", "claude"],
    circuit_breakers := [("openai", {}), ("claude", {})],
    metrics :=
      [("openai", initialOpenAIMetrics), ("claude", initialClaudeMetrics)] }

/-- Fallback metrics value used only to totalise lookups that are known
to succeed. -/
def defaultMetrics : ProviderMetrics :=
  { success_rate := 0, avg_response_time := 0, avg_quality_score := 0,
    cost_per_request := 0, total_requests := 0, last_success := 0 }

/-- Balanced composite score of a provider resolved through a manager's
metrics table. -/
def scoreOf (st : MgrState) (p : String) : ℚ :=
  balancedScore ((dictGet? st.metrics p).getD defaultMetrics)

/-- Orchestrator-run behaviour whose preprocessing step fails. -/
def preprocessingFailedBehavior : DocBehavior :=
  { pdf_path := "broken.pdf",
    preprocessing := .error (.preprocessingFailed "PDF conversion failed"),
    primary := .error (.providerError "unused"),
    secondary := .error (.providerError "unused"),
    elapsed := 1 }

/-- A fresh circuit breaker after one failed call: still `CLOSED`, with
`failure_count = 1`. -/
def breakerAfterOneFailure : CircuitBreaker :=
  (CircuitBreaker.call {} 0 (.error (.providerError "transient") :
    Except PyErr Unit)).2

/-- The same breaker after a subsequent successful call. -/
def breakerAfterSuccess : CircuitBreaker :=
  (breakerAfterOneFailure.call 1 (.ok () : Except PyErr Unit)).2

/-! ## Claim C1: the orchestrator entry point never propagates -/

/-- C1: whenever the internal pipeline of `parse_document` terminates in
any exception (preprocessing failure, primary extraction exhausting all
providers, or any other unrecoverable error), the public entry point
still returns a terminal `DocumentParsingResult` with empty extracted
data, `requires_manual_review = true`, and the failure message inside
`validation_errors`. -/
theorem C1_error_path_is_structured (b : DocBehavior) (e : PyErr)
    (h : parsePipeline b = .error e) :
    (parseDocument b).extracted_data = [] ∧
    (parseDocument b).requires_manual_review = true ∧
    (parseDocument b).validation_errors =
      ["Parsing failed: " ++ e.message] := by
  simp [parseDocument, h, createErrorResult]

/-- Witness for C1 at a concrete preprocessing failure. -/
theorem C1_error_path_is_structured_witness :
    parsePipeline preprocessingFailedBehavior =
      .error (.preprocessingFailed "PDF conversion failed") ∧
    (parseDocument preprocessingFailedBehavior).extracted_data = [] ∧
    (parseDocument preprocessingFailedBehavior).requires_manual_review = true ∧
    (parseDocument preprocessingFailedBehavior).validation_errors =
      ["Parsing failed: " ++
        (PyErr.preprocessingFailed "PDF conversion failed").message] :=
  ⟨rfl, C1_error_path_is_structured preprocessingFailedBehavior
    (.preprocessingFailed "PDF conversion failed") rfl⟩

/-! ## Claim C2: scenario A (all confidences 0.95, price 1500, valid VAT) -/

/-- Helper: when `_validate_and_enhance` raises, `parse_document` returns
the terminal error result built from that exception. -/
theorem parseDocument_of_vae_error (b : DocBehavior) (r : ExtractionResult)
    (e : PyErr) (hp : b.preprocessing = .ok ()) (hr : b.primary = .ok r)
    (hv : validateAndEnhance r b.secondary = .error e) :
    parseDocument b = createErrorResult b.pdf_path e.message b.elapsed := by
  unfold parseDocument parsePipeline
  rw [hp, hr]
  show (match validateAndEnhance r b.secondary >>=
      (fun finalResult => postProcessResult finalResult) with
    | Except.ok res => res
    | Except.error err =>
        createErrorResult b.pdf_path err.message b.elapsed) =
    createErrorResult b.pdf_path e.message b.elapsed
  rw [hv]
  rfl

/-- C2 (code bug): for the scenario-A document both confidence checks
pass (every critical field at 0.95 ≥ 0.85, average 0.95 ≥ 0.8), so
`_needs_secondary_validation` falls through to `_detect_data_anomalies` —
which reads `result.data`, an attribute `ExtractionResult` does not have,
and raises `AttributeError` outside any local `try`; the entry point's
catch-all then returns the terminal error result with
`requires_manual_review = true`, empty data and the AttributeError
message, not the `requiresManualReview = false` the claim states. -/
theorem C2_scenario_a_crashes_on_missing_data_attribute :
    needsSecondaryValidation scenarioAResult =
      .error (.attributeError noDataAttrMsg) ∧
    (parseDocument scenarioABehavior).extracted_data = [] ∧
    (parseDocument scenarioABehavior).requires_manual_review = true ∧
    (parseDocument scenarioABehavior).validation_errors =
      ["Parsing failed: " ++ noDataAttrMsg] := by
  have hneeds : needsSecondaryValidation scenarioAResult =
      .error (.attributeError noDataAttrMsg) := by
    unfold needsSecondaryValidation
    norm_num [criticalFields, scenarioAResult, scenarioAData, dictGetD,
      dictGet?, ExtractionResult.averageConfidence, confidenceThreshold,
      detectDataAnomalies]
  have hvae : validateAndEnhance scenarioAResult scenarioABehavior.secondary =
      .error (.attributeError noDataAttrMsg) := by
    unfold validateAndEnhance
    rw [hneeds]
  have hdoc := parseDocument_of_vae_error scenarioABehavior scenarioAResult
    (.attributeError noDataAttrMsg) rfl rfl hvae
  refine ⟨hneeds, ?_, ?_, ?_⟩ <;> rw [hdoc] <;> rfl

/-! ## Claim C3: circuit breaker behaviour on success -/

/-- C3 (counterexample): a reachable `CLOSED` breaker with
`failure_count = 1` keeps `failure_count = 1` after a successful call —
the claim that any success in `CLOSED` leaves `failure_count = 0` is
false (the source resets the count only on a `HALF_OPEN` success). -/
theorem C3_closed_success_keeps_count_counterexample :
    breakerAfterOneFailure.state = CBState.closed ∧
    breakerAfterOneFailure.failure_count = 1 ∧
    breakerAfterSuccess.state = CBState.closed ∧
    ¬ breakerAfterSuccess.failure_count = 0 := by decide

/-- C3 (amended): a successful call through a `CLOSED` breaker returns
the result, keeps the state `CLOSED` and leaves `failure_count`
unchanged (not reset); a successful call through a `HALF_OPEN` breaker
resets the breaker to `CLOSED` with `failure_count = 0`; a failed call
through a `CLOSED` breaker increments `failure_count` and trips the
breaker to `OPEN` exactly when the incremented count reaches
`failure_threshold` — so the breaker opens after `failure_threshold`
cumulative (not necessarily consecutive) failures since the last
`HALF_OPEN` reset. -/
theorem C3_breaker_transition_behavior {α : Type} (cb : CircuitBreaker)
    (now : ℚ) :
    (cb.state = .closed → ∀ r : α,
      (cb.call now (.ok r)).1 = .ok r ∧
      (cb.call now (.ok r)).2.state = .closed ∧
      (cb.call now (.ok r)).2.failure_count = cb.failure_count) ∧
    (cb.state = .halfOpen → ∀ r : α,
      (cb.call now (.ok r)).1 = .ok r ∧
      (cb.call now (.ok r)).2.state = .closed ∧
      (cb.call now (.ok r)).2.failure_count = 0) ∧
    (cb.state = .closed → ∀ e : PyErr,
      (cb.call now (.error e : Except PyErr α)).2.failure_count =
        cb.failure_count + 1 ∧
      (cb.call now (.error e : Except PyErr α)).2.state =
        (if cb.failure_count + 1 ≥ cb.failure_threshold then CBState.opened
         else CBState.closed)) := by
  refine ⟨fun h r => ?_, fun h r => ?_, fun h e => ?_⟩ <;>
    simp [CircuitBreaker.call, CircuitBreaker.attempt, h]

/-- Witness for C3 (amended) at the concrete reachable breaker. -/
theorem C3_breaker_transition_behavior_witness :
    breakerAfterOneFailure.state = CBState.closed ∧
    (breakerAfterOneFailure.call 1 (.ok () : Except PyErr Unit)).1 = .ok () ∧
    (breakerAfterOneFailure.call 1 (.ok () : Except PyErr Unit)).2.state =
      CBState.closed ∧
    (breakerAfterOneFailure.call 1 (.ok () : Except PyErr Unit)).2.failure_count =
      breakerAfterOneFailure.failure_count :=
  have h : breakerAfterOneFailure.state = CBState.closed := by decide
  ⟨h, (C3_breaker_transition_behavior breakerAfterOneFailure 1).1 h ()⟩

/-! ## Claim C4: exceptions of `AIProviderManager.parse_document` -/

/-- C4 (code bug): with every configured provider tripped open, no
eligible provider exists before any attempt, and `_select_provider` does
raise `NoHealthyProvidersException` — but the `except` block of
`parse_document` then reads the never-assigned local `provider_name`, so
what actually escapes the operation is `UnboundLocalError`, not
`NoHealthyProvidersException` (and not `AllProvidersFailedException`). -/
theorem C4_unbound_local_escapes_manager_parse :
    selectProvider allOpenMgrState "balanced" none =
      .error (.noHealthyProviders "No healthy providers available") ∧
    (managerParse allOpenMgrState
        (fun _ => .error (.providerError "backend down")) 1000 "balanced"
        none).1 =
      .error (.unboundLocal "provider_name") :=
  ⟨rfl, rfl⟩

/-! ## Dictionary lemmas -/

theorem dictGet?_mem {α : Type} (d : List (String × α)) (k : String) (v : α)
    (h : dictGet? d k = some v) : ∃ k', (k', v) ∈ d := by
  induction d with
  | nil => simp [dictGet?] at h
  | cons a rest ih =>
      obtain ⟨k', w⟩ := a
      simp only [dictGet?] at h
      by_cases hk : k' = k
      · rw [if_pos hk] at h
        injection h with h'
        subst h'
        exact ⟨k', List.mem_cons_self _ _⟩
      · rw [if_neg hk] at h
        obtain ⟨k'', hk''⟩ := ih h
        exact ⟨k'', List.mem_cons_of_mem _ hk''⟩

/-! ## Claim C5: escalation thresholds at the exact boundary -/

/-- C5 (code bug): at the exact boundary — all five critical-field
confidences 0.85, average confidence 0.80 — neither confidence comparison
triggers (both are strict), exactly as the claim expects; but the check
then falls through to `_detect_data_anomalies`, whose read of
`result.data` raises `AttributeError`, so `_needs_secondary_validation`
never decides NOT to escalate: it crashes instead. The other half of the
claim behaves as stated: a critical-field confidence of 0.84 makes the
check decide to escalate before the broken code is reached. -/
theorem C5_boundary_check_crashes :
    dictGetD boundaryResult.confidence_scores "client_company_name" 0 = 0.85 ∧
    dictGetD boundaryResult.confidence_scores "client_vat_number" 0 = 0.85 ∧
    dictGetD boundaryResult.confidence_scores "client_offered_price" 0 = 0.85 ∧
    dictGetD boundaryResult.confidence_scores "pickup_address" 0 = 0.85 ∧
    dictGetD boundaryResult.confidence_scores "delivery_address" 0 = 0.85 ∧
    boundaryResult.averageConfidence = 0.8 ∧
    needsSecondaryValidation boundaryResult =
      .error (.attributeError noDataAttrMsg) ∧
    dictGetD lowBoundaryResult.confidence_scores "client_company_name" 0 =
      0.84 ∧
    needsSecondaryValidation lowBoundaryResult = .ok true := by
  refine ⟨?_, ?_, ?_, ?_, ?_, ?_, ?_, ?_, ?_⟩
  · norm_num [boundaryResult, dictGetD, dictGet?]
  · norm_num [boundaryResult, dictGetD, dictGet?]
  · norm_num [boundaryResult, dictGetD, dictGet?]
  · norm_num [boundaryResult, dictGetD, dictGet?]
  · norm_num [boundaryResult, dictGetD, dictGet?]
  · norm_num [ExtractionResult.averageConfidence, boundaryResult]
  · unfold needsSecondaryValidation
    norm_num [criticalFields, boundaryResult, dictGetD, dictGet?,
      ExtractionResult.averageConfidence, confidenceThreshold,
      detectDataAnomalies]
  · norm_num [lowBoundaryResult, dictGetD, dictGet?]
  · unfold needsSecondaryValidation
    norm_num [criticalFields, lowBoundaryResult, dictGetD, dictGet?,
      confidenceThreshold]

/-! ## Claim C6: the merge -/

/-- C6 (code bug): `_merge_extraction_results` raises `AttributeError` at
its very first expression, `set(primary.data.keys())` — `ExtractionResult`
has no `data` attribute — so it never returns the union / higher-
confidence / `primary+secondary` merged result the claim describes, for
any pair of inputs; downstream, the `try` in `_validate_and_enhance`
catches the failure and silently returns the unmerged primary result. -/
theorem C6_merge_always_raises :
    mergeExtractionResults mergePrimary mergeSecondary =
      .error (.attributeError noDataAttrMsg) ∧
    needsSecondaryValidation lowBoundaryResult = .ok true ∧
    validateAndEnhance lowBoundaryResult (.ok mergeSecondary) =
      .ok lowBoundaryResult := by
  have hlow : needsSecondaryValidation lowBoundaryResult = .ok true := by
    unfold needsSecondaryValidation
    norm_num [criticalFields, lowBoundaryResult, dictGetD, dictGet?,
      confidenceThreshold]
  refine ⟨rfl, hlow, ?_⟩
  unfold validateAndEnhance
  rw [hlow]
  rfl

/-! ## Claim C10: scoring an empty extraction -/

/-- C10: scoring an empty extracted-data mapping yields no field
confidences, overall confidence 0.3, critical-fields confidence 0.5,
and a required manual review with a non-empty reasons list. -/
theorem C10_empty_extraction_scoring (ai : Option (List (String × ℚ))) :
    (scoreExtraction [] ai).field_confidences = [] ∧
    (scoreExtraction [] ai).overall_confidence = 0.3 ∧
    (scoreExtraction [] ai).critical_fields_confidence = 0.5 ∧
    (scoreExtraction [] ai).manual_review_required = true ∧
    (scoreExtraction [] ai).review_reasons ≠ [] := by
  refine ⟨rfl, rfl, rfl, ?_, ?_⟩ <;>
    norm_num [scoreExtraction, calculateOverallConfidence,
      calculateCriticalFieldsConfidence, assessManualReviewNeed,
      List.cons_ne_nil]

/-! ## Claim C9: manual-review triggers -/

/-- The review flag of `_assess_manual_review_need` is set exactly when
one of the four triggers holds. -/
theorem assess_flag_iff (fcs : List (String × FieldConfidence)) (oc cc : ℚ) :
    (assessManualReviewNeed fcs oc cc).1 = true ↔
      (cc < 0.7 ∨ oc < 0.6 ∨
        (∃ p ∈ fcs, scorerCriticalFields.contains p.1 = true ∧
          p.2.confidence < 0.5) ∨
        (∃ p ∈ fcs, scorerCriticalFields.contains p.1 = true ∧
          p.2.validation_passed = false)) := by
  unfold assessManualReviewNeed
  simp only []
  rw [Bool.not_eq_true', List.isEmpty_eq_false, ne_eq, List.append_eq_nil,
    List.append_eq_nil, List.append_eq_nil, not_and_or, not_and_or, not_and_or,
    or_assoc, or_assoc]
  refine or_congr ?_ (or_congr ?_ (or_congr ?_ ?_))
  · by_cases h : cc < 0.7 <;> simp [h]
  · by_cases h : oc < 0.6 <;> simp [h]
  · rw [List.map_eq_nil_iff, List.filter_eq_nil_iff]
    simp only [Bool.and_eq_true, decide_eq_true_eq, not_forall, not_not,
      exists_prop]
  · split_ifs with h
    · rw [List.isEmpty_iff, List.map_eq_nil_iff, List.filter_eq_nil_iff] at h
      constructor
      · intro hcontra; exact absurd rfl hcontra
      · rintro ⟨p, hp, hc, hfail⟩
        exfalso
        have hnp := h p hp
        rw [Bool.and_eq_true, Bool.not_eq_true'] at hnp
        exact hnp ⟨hfail, hc⟩
    · rw [List.isEmpty_iff, List.map_eq_nil_iff] at h
      constructor
      · intro _
        obtain ⟨p, hp⟩ := List.exists_mem_of_ne_nil _ h
        rw [List.mem_filter, Bool.and_eq_true, Bool.not_eq_true'] at hp
        exact ⟨p, hp.1, hp.2.2, hp.2.1⟩
      · intro _
        simp

/-- Each critical field scored below 0.5 contributes a reason naming it. -/
theorem assess_reason_naming (fcs : List (String × FieldConfidence))
    (oc cc : ℚ) (p : String × FieldConfidence) (hp : p ∈ fcs)
    (hcrit : scorerCriticalFields.contains p.1 = true)
    (hconf : p.2.confidence < 0.5) :
    ∃ r ∈ (assessManualReviewNeed fcs oc cc).2, strContains r p.1 = true := by
  refine ⟨"Critical field " ++ apos ++ p.1 ++ apos ++
    " has very low confidence: " ++ formatQ2 p.2.confidence, ?_, ?_⟩
  · unfold assessManualReviewNeed
    simp only [List.mem_append]
    refine Or.inl (Or.inr ?_)
    rw [List.mem_map]
    refine ⟨p, List.mem_filter.mpr ⟨hp, ?_⟩, by simp [String.append_assoc]⟩
    have hmem : p.1 ∈ scorerCriticalFields := List.elem_iff.mp hcrit
    simp [hmem, hconf]
  · unfold strContains
    rw [decide_eq_true_eq]
    refine ⟨("Critical field " ++ apos).data,
      (apos ++ " has very low confidence: " ++
        formatQ2 p.2.confidence).data, ?_⟩
    simp [String.data_append]

theorem scoreExtraction_field_confidences (data : List (String × PyVal))
    (ai : Option (List (String × ℚ))) :
    (scoreExtraction data ai).field_confidences =
      data.map fun q => (q.1, scoreField q.1 q.2 ai data) := rfl

theorem scoreExtraction_mrr (data : List (String × PyVal))
    (ai : Option (List (String × ℚ))) :
    (scoreExtraction data ai).manual_review_required =
      (assessManualReviewNeed (scoreExtraction data ai).field_confidences
        (scoreExtraction data ai).overall_confidence
        (scoreExtraction data ai).critical_fields_confidence).1 := rfl

theorem scoreExtraction_reasons (data : List (String × PyVal))
    (ai : Option (List (String × ℚ))) :
    (scoreExtraction data ai).review_reasons =
      (assessManualReviewNeed (scoreExtraction data ai).field_confidences
        (scoreExtraction data ai).overall_confidence
        (scoreExtraction data ai).critical_fields_confidence).2 := rfl

/-- Value of `_calculate_weighted_confidence` on the four factors built
by `_score_field` (their weights sum to 1). -/
theorem weighted_of_four (a b c d : ℚ) :
    calculateWeightedConfidence
      [("ai_provider", a), ("format_validation", b),
       ("business_rules", c), ("consistency", d)] =
      min 1 (a * 0.3 + (b * 0.35 + (c * 0.2 + (d * 0.15 + 0)))) := by
  norm_num [calculateWeightedConfidence, factorWeight,
    (by decide : ¬("format_validation" = "ai_provider")),
    (by decide : ¬("business_rules" = "ai_provider")),
    (by decide : ¬("business_rules" = "format_validation")),
    (by decide : ¬("consistency" = "ai_provider")),
    (by decide : ¬("consistency" = "format_validation")),
    (by decide : ¬("consistency" = "business_rules"))]

/-- Closed form of the calibrated confidence computed by `_score_field`. -/
theorem scoreField_confidence_eq (fieldName : String) (value : PyVal)
    (aiScores : Option (List (String × ℚ)))
    (fullData : List (String × PyVal)) :
    (scoreField fieldName value aiScores fullData).confidence =
      min 1
        ((match aiScores with
          | some m => dictGetD m fieldName 0.5
          | none => 0.5) * 0.3 +
         ((validateFieldFormat fieldName value).1 * 0.35 +
          ((validateScorerBusinessRules fieldName value).1 * 0.2 +
           ((validateFieldConsistency fieldName value fullData).1 * 0.15 +
            0)))) := by
  unfold scoreField
  simp only []
  exact weighted_of_four _ _ _ _

theorem exists_contains_iff_mem {P : String × FieldConfidence → Prop}
    (l : List (String × FieldConfidence)) :
    (∃ p ∈ l, scorerCriticalFields.contains p.1 = true ∧ P p) ↔
      (∃ p ∈ l, p.1 ∈ scorerCriticalFields ∧ P p) := by
  constructor <;> rintro ⟨p, hp, hc, hP⟩
  · exact ⟨p, hp, List.elem_iff.mp hc, hP⟩
  · exact ⟨p, hp, List.elem_iff.mpr hc, hP⟩

/-- C9: the scored document requires manual review exactly when
critical-fields confidence is below 0.7, or overall confidence below 0.6,
or some critical field's confidence is below 0.5, or some critical field
fails its own validation; and every critical field scored below 0.5 is
named by an entry of the review-reasons list. -/
theorem C9_manual_review_triggers (data : List (String × PyVal))
    (ai : Option (List (String × ℚ))) :
    ((scoreExtraction data ai).manual_review_required = true ↔
      ((scoreExtraction data ai).critical_fields_confidence < 0.7 ∨
       (scoreExtraction data ai).overall_confidence < 0.6 ∨
       (∃ p ∈ (scoreExtraction data ai).field_confidences,
         p.1 ∈ scorerCriticalFields ∧ p.2.confidence < 0.5) ∨
       (∃ p ∈ (scoreExtraction data ai).field_confidences,
         p.1 ∈ scorerCriticalFields ∧ p.2.validation_passed = false))) ∧
    (∀ p ∈ (scoreExtraction data ai).field_confidences,
      p.1 ∈ scorerCriticalFields → p.2.confidence < 0.5 →
      ∃ r ∈ (scoreExtraction data ai).review_reasons,
        strContains r p.1 = true) := by
  constructor
  · rw [scoreExtraction_mrr]
    exact (assess_flag_iff _ _ _).trans
      (or_congr Iff.rfl (or_congr Iff.rfl
        (or_congr (exists_contains_iff_mem _) (exists_contains_iff_mem _))))
  · intro p hp hcrit hconf
    rw [scoreExtraction_reasons]
    exact assess_reason_naming _ _ _ p hp (List.elem_iff.mpr hcrit) hconf

/-- Witness for C9: a malformed critical VAT value with provider
confidence 0 scores below 0.5, forces the review flag, and is named in
the reasons. -/
theorem C9_manual_review_triggers_witness :
    (("client_vat_number",
        scoreField "client_vat_number" (.vStr "bad") (some lowVatScores)
          lowVatData) ∈
      (scoreExtraction lowVatData (some lowVatScores)).field_confidences) ∧
    "client_vat_number" ∈ scorerCriticalFields ∧
    (scoreField "client_vat_number" (.vStr "bad") (some lowVatScores)
        lowVatData).confidence < 0.5 ∧
    (scoreExtraction lowVatData (some lowVatScores)).manual_review_required =
      true ∧
    (∃ r ∈ (scoreExtraction lowVatData (some lowVatScores)).review_reasons,
      strContains r "client_vat_number" = true) := by
  have hmem : ("client_vat_number",
      scoreField "client_vat_number" (.vStr "bad") (some lowVatScores)
        lowVatData) ∈
      (scoreExtraction lowVatData (some lowVatScores)).field_confidences :=
    List.mem_cons_self _ _
  have hcrit : "client_vat_number" ∈ scorerCriticalFields := by decide
  have hfmt : (validateFieldFormat "client_vat_number" (.vStr "bad")).1 =
      0.3 := by
    norm_num [validateFieldFormat, PyVal.pyStr,
      (by decide : (PyVal.vStr "bad").truthy = true),
      (by decide : (PyVal.vStr "bad" == PyVal.vStr "") = false),
      (by decide : endsWithStr "client_vat_number" "_email" = false),
      (by decide : strContains (lowerStr "client_vat_number") "email" = false),
      (by decide : strContains (lowerStr "client_vat_number") "vat" = true),
      (by decide : matchRomanianVat (stripStr "bad") = false),
      (by decide : matchEuVat (stripStr "bad") = false)]
  have hbiz : (validateScorerBusinessRules "client_vat_number"
      (.vStr "bad")).1 = 0.7 := by
    norm_num [validateScorerBusinessRules,
      (by decide : strContains (lowerStr "client_vat_number") "price" = false),
      (by decide : strContains (lowerStr "client_vat_number") "date" = false),
      (by decide : ¬("client_vat_number" = "cargo_weight_kg")),
      (by decide : ¬("client_vat_number" = "cargo_ldm"))]
  have hcons : (validateFieldConsistency "client_vat_number" (.vStr "bad")
      lowVatData).1 = 0.8 := by
    norm_num [validateFieldConsistency,
      (by decide : ¬("client_vat_number" = "pickup_city")),
      (by decide : hasKey lowVatData "client_company_name" = false)]
  have hconf : (scoreField "client_vat_number" (.vStr "bad")
      (some lowVatScores) lowVatData).confidence < 0.5 := by
    rw [scoreField_confidence_eq, hfmt, hbiz, hcons]
    norm_num [dictGetD, dictGet?, lowVatScores, min_def]
  refine ⟨hmem, hcrit, hconf, ?_, ?_⟩
  · exact ((C9_manual_review_triggers lowVatData (some lowVatScores)).1).mpr
      (Or.inr (Or.inr (Or.inl ⟨_, hmem, hcrit, hconf⟩)))
  · exact (C9_manual_review_triggers lowVatData (some lowVatScores)).2 _
      hmem hcrit hconf

/-! ## Claim C7: confidence bounds -/

theorem scoreExtraction_overall (data : List (String × PyVal))
    (ai : Option (List (String × ℚ))) :
    (scoreExtraction data ai).overall_confidence =
      calculateOverallConfidence
        ((scoreExtraction data ai).field_confidences) := rfl

theorem scoreExtraction_critical (data : List (String × PyVal))
    (ai : Option (List (String × ℚ))) :
    (scoreExtraction data ai).critical_fields_confidence =
      calculateCriticalFieldsConfidence
        ((scoreExtraction data ai).field_confidences) := rfl

/-- Format-validation confidences stay within `[0, 1]`. -/
theorem validateFieldFormat_bounds (fieldName : String) (value : PyVal) :
    0 ≤ (validateFieldFormat fieldName value).1 ∧
    (validateFieldFormat fieldName value).1 ≤ 1 := by
  simp only [validateFieldFormat]
  repeat' split
  all_goals norm_num

/-- Business-rule confidences stay within `[0, 1]`. -/
theorem validateScorerBusinessRules_bounds (fieldName : String)
    (value : PyVal) :
    0 ≤ (validateScorerBusinessRules fieldName value).1 ∧
    (validateScorerBusinessRules fieldName value).1 ≤ 1 := by
  simp only [validateScorerBusinessRules]
  repeat' split
  all_goals norm_num

/-- Consistency confidences stay within `[0, 1]`. -/
theorem validateFieldConsistency_bounds (fieldName : String) (value : PyVal)
    (fullData : List (String × PyVal)) :
    0 ≤ (validateFieldConsistency fieldName value fullData).1 ∧
    (validateFieldConsistency fieldName value fullData).1 ≤ 1 := by
  simp only [validateFieldConsistency]
  repeat' split
  all_goals norm_num

theorem dictGetD_nonneg_of_all (m : List (String × ℚ))
    (h : ∀ p ∈ m, 0 ≤ p.2) (k : String) : 0 ≤ dictGetD m k 0.5 := by
  unfold dictGetD
  cases hq : dictGet? m k with
  | none => norm_num
  | some v =>
      obtain ⟨k', hk'⟩ := dictGet?_mem m k v hq
      simpa using h _ hk'

/-- The calibrated per-field confidence never exceeds 1. -/
theorem scoreField_confidence_le_one (fieldName : String) (value : PyVal)
    (aiScores : Option (List (String × ℚ)))
    (fullData : List (String × PyVal)) :
    (scoreField fieldName value aiScores fullData).confidence ≤ 1 := by
  rw [scoreField_confidence_eq]
  exact min_le_left _ _

/-- With nonnegative provider-reported confidences, the calibrated
per-field confidence is nonnegative. -/
theorem scoreField_confidence_nonneg (fieldName : String) (value : PyVal)
    (aiScores : Option (List (String × ℚ)))
    (fullData : List (String × PyVal))
    (h : ∀ l, aiScores = some l → ∀ p ∈ l, 0 ≤ p.2) :
    0 ≤ (scoreField fieldName value aiScores fullData).confidence := by
  rw [scoreField_confidence_eq]
  refine le_min (by norm_num) ?_
  have hbase : 0 ≤ (match aiScores with
      | some m => dictGetD m fieldName 0.5
      | none => (0.5 : ℚ)) := by
    cases aiScores with
    | none => norm_num
    | some m => exact dictGetD_nonneg_of_all m (h m rfl) fieldName
  have h₁ := (validateFieldFormat_bounds fieldName value).1
  have h₂ := (validateScorerBusinessRules_bounds fieldName value).1
  have h₃ := (validateFieldConsistency_bounds fieldName value fullData).1
  have c₁ : (0:ℚ) ≤ 0.3 := by norm_num
  have c₂ : (0:ℚ) ≤ 0.35 := by norm_num
  have c₃ : (0:ℚ) ≤ 0.2 := by norm_num
  have c₄ : (0:ℚ) ≤ 0.15 := by norm_num
  exact add_nonneg (mul_nonneg hbase c₁)
    (add_nonneg (mul_nonneg h₁ c₂)
      (add_nonneg (mul_nonneg h₂ c₃)
        (add_nonneg (mul_nonneg h₃ c₄) le_rfl)))

theorem qmean_nonneg (l : List ℚ) (h : ∀ x ∈ l, 0 ≤ x) : 0 ≤ qmean l :=
  div_nonneg (List.sum_nonneg h) (Nat.cast_nonneg _)

theorem qmean_le_one (l : List ℚ) (h : ∀ x ∈ l, x ≤ 1) : qmean l ≤ 1 := by
  rcases eq_or_ne l [] with rfl | hne
  · simp [qmean]
  · unfold qmean
    rw [div_le_one (by exact_mod_cast List.length_pos.mpr hne)]
    calc l.sum ≤ l.length • (1 : ℚ) := List.sum_le_card_nsmul l 1 h
      _ = l.length := by simp

/-- The overall document confidence never exceeds 1. -/
theorem calculateOverall_le_one (fcs : List (String × FieldConfidence)) :
    calculateOverallConfidence fcs ≤ 1 := by
  unfold calculateOverallConfidence
  split
  · norm_num
  · exact min_le_left _ _

/-- With nonnegative per-field confidences the overall confidence is
nonnegative. -/
theorem calculateOverall_nonneg (fcs : List (String × FieldConfidence))
    (h : ∀ p ∈ fcs, 0 ≤ p.2.confidence) :
    0 ≤ calculateOverallConfidence fcs := by
  unfold calculateOverallConfidence
  split
  · norm_num
  · refine le_min (by norm_num) ?_
    have hca : 0 ≤ (if ((fcs.filter fun p =>
        scorerCriticalFields.contains p.1).map
          fun p => p.2.confidence).isEmpty then (0.5 : ℚ)
        else qmean ((fcs.filter fun p =>
          scorerCriticalFields.contains p.1).map fun p => p.2.confidence)) := by
      split
      · norm_num
      · refine qmean_nonneg _ ?_
        intro x hx
        obtain ⟨p, hp, rfl⟩ := List.mem_map.mp hx
        exact h p (List.mem_filter.mp hp).1
    have hna : 0 ≤ (if ((fcs.filter fun p =>
        !scorerCriticalFields.contains p.1).map
          fun p => p.2.confidence).isEmpty then (0.7 : ℚ)
        else qmean ((fcs.filter fun p =>
          !scorerCriticalFields.contains p.1).map fun p => p.2.confidence)) := by
      split
      · norm_num
      · refine qmean_nonneg _ ?_
        intro x hx
        obtain ⟨p, hp, rfl⟩ := List.mem_map.mp hx
        exact h p (List.mem_filter.mp hp).1
    exact add_nonneg (mul_nonneg hca (by norm_num))
      (mul_nonneg hna (by norm_num))

/-- Critical-fields confidence bounds from per-field bounds. -/
theorem calculateCritical_bounds (fcs : List (String × FieldConfidence))
    (hnn : ∀ p ∈ fcs, 0 ≤ p.2.confidence)
    (hle : ∀ p ∈ fcs, p.2.confidence ≤ 1) :
    0 ≤ calculateCriticalFieldsConfidence fcs ∧
    calculateCriticalFieldsConfidence fcs ≤ 1 := by
  simp only [calculateCriticalFieldsConfidence]
  split
  · norm_num
  · constructor
    · refine qmean_nonneg _ ?_
      intro x hx
      obtain ⟨p, hp, rfl⟩ := List.mem_map.mp hx
      exact hnn p (List.mem_filter.mp hp).1
    · refine qmean_le_one _ ?_
      intro x hx
      obtain ⟨p, hp, rfl⟩ := List.mem_map.mp hx
      exact hle p (List.mem_filter.mp hp).1

/-- The critical-fields confidence never exceeds 1 (the per-field scores
are clamped above, and the empty default is 0.5). -/
theorem calculateCritical_le_one (fcs : List (String × FieldConfidence))
    (hle : ∀ p ∈ fcs, p.2.confidence ≤ 1) :
    calculateCriticalFieldsConfidence fcs ≤ 1 := by
  simp only [calculateCriticalFieldsConfidence]
  split
  · norm_num
  · refine qmean_le_one _ ?_
    intro x hx
    obtain ⟨p, hp, rfl⟩ := List.mem_map.mp hx
    exact hle p (List.mem_filter.mp hp).1

/-- C7 (amended): every confidence produced by `score_extraction` is at
most 1; and when every provider-reported confidence is nonnegative (in
particular whenever they lie in `[0, 1]`), every produced confidence lies
in `[0, 1]`.  (Without that hypothesis the lower bound fails — see the
counterexample.) -/
theorem C7_confidence_bounds (data : List (String × PyVal))
    (ai : Option (List (String × ℚ))) :
    ((∀ p ∈ (scoreExtraction data ai).field_confidences,
        p.2.confidence ≤ 1) ∧
      (scoreExtraction data ai).overall_confidence ≤ 1 ∧
      (scoreExtraction data ai).critical_fields_confidence ≤ 1) ∧
    ((∀ l, ai = some l → ∀ p ∈ l, 0 ≤ p.2) →
      ((∀ p ∈ (scoreExtraction data ai).field_confidences,
          0 ≤ p.2.confidence) ∧
        0 ≤ (scoreExtraction data ai).overall_confidence ∧
        0 ≤ (scoreExtraction data ai).critical_fields_confidence)) := by
  have hle : ∀ p ∈ (scoreExtraction data ai).field_confidences,
      p.2.confidence ≤ 1 := by
    intro p hp
    rw [scoreExtraction_field_confidences] at hp
    obtain ⟨q, _, rfl⟩ := List.mem_map.mp hp
    exact scoreField_confidence_le_one _ _ _ _
  constructor
  · exact ⟨hle,
      by rw [scoreExtraction_overall]; exact calculateOverall_le_one _,
      by rw [scoreExtraction_critical]; exact calculateCritical_le_one _ hle⟩
  · intro hai
    have hnn : ∀ p ∈ (scoreExtraction data ai).field_confidences,
        0 ≤ p.2.confidence := by
      intro p hp
      rw [scoreExtraction_field_confidences] at hp
      obtain ⟨q, _, rfl⟩ := List.mem_map.mp hp
      exact scoreField_confidence_nonneg _ _ _ _ hai
    exact ⟨hnn,
      by rw [scoreExtraction_overall]; exact calculateOverall_nonneg _ hnn,
      by rw [scoreExtraction_critical];
         exact (calculateCritical_bounds _ hnn hle).1⟩

/-- Witness for C7 at a concrete nonnegative provider-confidence map. -/
theorem C7_confidence_bounds_witness :
    (∀ l, (some goodAiScores : Option (List (String × ℚ))) = some l →
      ∀ p ∈ l, 0 ≤ p.2) ∧
    ((∀ p ∈ (scoreExtraction negativeAiData (some goodAiScores)).field_confidences,
        0 ≤ p.2.confidence) ∧
      0 ≤ (scoreExtraction negativeAiData (some goodAiScores)).overall_confidence ∧
      0 ≤ (scoreExtraction negativeAiData
          (some goodAiScores)).critical_fields_confidence) :=
  have h : ∀ l, (some goodAiScores : Option (List (String × ℚ))) = some l →
      ∀ p ∈ l, 0 ≤ p.2 := by
    intro l hl p hp
    injection hl with hl
    subst hl
    simp only [goodAiScores, List.mem_singleton] at hp
    subst hp
    norm_num
  ⟨h, (C7_confidence_bounds negativeAiData (some goodAiScores)).2 h⟩

/-- C7 (counterexample): with a provider-reported confidence of `-10`
(outside `[0, 1]`), `score_extraction` returns confidences strictly below
0 — the claimed unconditional `[0, 1]` bound is false. -/
theorem C7_negative_confidence_counterexample :
    (scoreExtraction negativeAiData
        (some negativeAiScores)).overall_confidence < 0 ∧
    (scoreExtraction negativeAiData
        (some negativeAiScores)).critical_fields_confidence < 0 ∧
    ∃ p ∈ (scoreExtraction negativeAiData
        (some negativeAiScores)).field_confidences, p.2.confidence < 0 := by
  have hfmt : (validateFieldFormat "client_company_name"
      (.vStr "ACME SRL")).1 = 0.8 := by
    norm_num [validateFieldFormat, PyVal.pyStr,
      (by decide : (PyVal.vStr "ACME SRL").truthy = true),
      (by decide : (PyVal.vStr "ACME SRL" == PyVal.vStr "") = false),
      (by decide : endsWithStr "client_company_name" "_email" = false),
      (by decide :
        strContains (lowerStr "client_company_name") "email" = false),
      (by decide : strContains (lowerStr "client_company_name") "vat" = false),
      (by decide :
        strContains (lowerStr "client_company_name") "price" = false),
      (by decide : strContains (lowerStr "client_company_name") "cost" = false),
      (by decide :
        strContains (lowerStr "client_company_name") "address" = false),
      (by decide :
        strContains (lowerStr "client_company_name") "postcode" = false),
      (by decide :
        strContains (lowerStr "client_company_name") "company" = true),
      (by decide : (3 ≤ (stripStr "ACME SRL").length ∧
        ∃ x ∈ (stripStr "ACME SRL").data, x.isAlpha = true))]
  have hbiz : (validateScorerBusinessRules "client_company_name"
      (.vStr "ACME SRL")).1 = 0.7 := by
    norm_num [validateScorerBusinessRules,
      (by decide :
        strContains (lowerStr "client_company_name") "price" = false),
      (by decide : strContains (lowerStr "client_company_name") "date" = false),
      (by decide : ¬("client_company_name" = "cargo_weight_kg")),
      (by decide : ¬("client_company_name" = "cargo_ldm"))]
  have hcons : (validateFieldConsistency "client_company_name"
      (.vStr "ACME SRL") negativeAiData).1 = 0.8 := by
    norm_num [validateFieldConsistency,
      (by decide : ¬("client_company_name" = "pickup_city")),
      (by decide : ¬("client_company_name" = "client_vat_number"))]
  have hc : (scoreField "client_company_name" (.vStr "ACME SRL")
      (some negativeAiScores) negativeAiData).confidence = -2.46 := by
    rw [scoreField_confidence_eq, hfmt, hbiz, hcons]
    norm_num [dictGetD, dictGet?, negativeAiScores, min_def]
  have hfield : (scoreExtraction negativeAiData
      (some negativeAiScores)).field_confidences =
      [("client_company_name", scoreField "client_company_name"
        (.vStr "ACME SRL") (some negativeAiScores) negativeAiData)] := rfl
  refine ⟨?_, ?_, ?_⟩
  · rw [scoreExtraction_overall, hfield]
    norm_num [calculateOverallConfidence, qmean, hc, min_def,
      (by decide : "client_company_name" ∈ scorerCriticalFields)]
  · rw [scoreExtraction_critical, hfield]
    norm_num [calculateCriticalFieldsConfidence, qmean, hc,
      (by decide : "client_company_name" ∈ scorerCriticalFields)]
  · refine ⟨_, by rw [hfield]; exact List.mem_cons_self _ _, ?_⟩
    rw [hc]
    norm_num

/-! ## Claim C8: balanced provider selection -/

/-- With all metrics present, the Except-threaded selection loop agrees
with its pure form over the resolved score function. -/
theorem selectBalancedGo_eq_core (st : MgrState) :
    ∀ l : List String, (∀ p ∈ l, (dictGet? st.metrics p).isSome = true) →
      ∀ (best : Option String) (bs : ℚ),
        selectBalancedGo st l best bs =
          .ok (selectBalancedCore (scoreOf st) l best bs) := by
  intro l
  induction l with
  | nil => intro _ best bs; rfl
  | cons p rest ih =>
      intro hm best bs
      obtain ⟨m, hm'⟩ :=
        Option.isSome_iff_exists.mp (hm p (List.mem_cons_self _ _))
      have hscore : scoreOf st p = balancedScore m := by
        simp [scoreOf, hm']
      simp only [selectBalancedGo, selectBalancedCore, hm', hscore]
      by_cases hc : balancedScore m > bs
      · simp only [if_pos hc]
        exact ih (fun q hq => hm q (List.mem_cons_of_mem _ hq)) _ _
      · simp only [if_neg hc]
        exact ih (fun q hq => hm q (List.mem_cons_of_mem _ hq)) _ _

/-- The strictly-improving fold started at a seeded best returns the
first score-maximal element of the seeded list. -/
theorem core_eq_find (score : String → ℚ) :
    ∀ (l : List String) (b : String),
      selectBalancedCore score l (some b) (score b) =
        List.find? (fun p => (b :: l).all fun q => decide (score q ≤ score p))
          (b :: l) := by
  intro l
  induction l with
  | nil =>
      intro b
      simp [selectBalancedCore, List.find?, List.all_cons, List.all_nil]
  | cons q rest ih =>
      intro b
      by_cases hgt : score q > score b
      · have hstep : selectBalancedCore score (q :: rest) (some b) (score b) =
            selectBalancedCore score rest (some q) (score q) := by
          simp [selectBalancedCore, hgt]
        have hfun : (fun x => (b :: q :: rest).all fun y =>
              decide (score y ≤ score x)) =
            (fun x => (q :: rest).all fun y => decide (score y ≤ score x)) := by
          funext x
          simp only [List.all_cons]
          by_cases hq : score q ≤ score x
          · have hbx : score b ≤ score x := le_trans (le_of_lt hgt) hq
            simp [hq, hbx]
          · simp [hq]
        have hqb : ((q :: rest).all fun y =>
            decide (score y ≤ score b)) = false := by
          simp [List.all_cons, not_le.mpr hgt]
        rw [hstep, ih q, hfun]
        set P : String → Bool :=
          fun x => (q :: rest).all fun y => decide (score y ≤ score x) with hP
        have hpb : P b = false := by
          rw [hP]
          show ((q :: rest).all fun y => decide (score y ≤ score b)) = false
          exact hqb
        exact (List.find?_cons_of_neg _ (by simp [hpb])).symm
      · push_neg at hgt
        have hstep : selectBalancedCore score (q :: rest) (some b) (score b) =
            selectBalancedCore score rest (some b) (score b) := by
          simp [selectBalancedCore, not_lt.mpr hgt]
        have hfun : (fun x => (b :: q :: rest).all fun y =>
              decide (score y ≤ score x)) =
            (fun x => (b :: rest).all fun y => decide (score y ≤ score x)) := by
          funext x
          simp only [List.all_cons]
          by_cases hbx : score b ≤ score x
          · have hqx : score q ≤ score x := le_trans hgt hbx
            simp [hbx, hqx]
          · simp [hbx]
        rw [hstep, ih b, hfun]
        set P : String → Bool :=
          fun x => (b :: rest).all fun y => decide (score y ≤ score x) with hP
        cases hpb : P b with
        | true =>
            rw [List.find?_cons_of_pos _ hpb, List.find?_cons_of_pos _ hpb]
        | false =>
            have hpq : P q = false := by
              rw [hP]
              show ((b :: rest).all fun y => decide (score y ≤ score q)) = false
              by_contra hq
              rw [Bool.not_eq_false, List.all_eq_true] at hq
              have hball : ((b :: rest).all fun y =>
                  decide (score y ≤ score b)) = true := by
                rw [List.all_eq_true]
                intro y hy
                have hyq := hq y hy
                rw [decide_eq_true_eq] at hyq ⊢
                exact le_trans hyq hgt
              have hPb : P b = true := by
                rw [hP]
                exact hball
              rw [hpb] at hPb
              exact Bool.false_ne_true hPb
            rw [List.find?_cons_of_neg _ (by simp [hpb]),
              List.find?_cons_of_neg _ (by simp [hpb]),
              List.find?_cons_of_neg _ (by simp [hpq])]

/-- C8: for a non-empty eligible-provider list whose metrics are present
and whose composite scores exceed the loop's `-1` sentinel (true of all
real metrics), `_select_balanced_provider` returns exactly the first
provider in iteration order whose composite score
`0.30·quality + 0.20·speed + 0.20·cost + 0.30·reliability` is maximal,
ties favouring the earlier provider. -/
theorem C8_balanced_selection (st : MgrState) (available : List String)
    (hne : available ≠ [])
    (hm : ∀ p ∈ available, (dictGet? st.metrics p).isSome = true)
    (hsc : ∀ p ∈ available, -1 < scoreOf st p) :
    selectBalancedProvider st available =
      .ok (specBalancedChoice (scoreOf st) available) := by
  obtain ⟨b, rest, rfl⟩ := List.exists_cons_of_ne_nil hne
  unfold selectBalancedProvider
  rw [selectBalancedGo_eq_core st (b :: rest) hm none (-1)]
  congr 1
  have hb : scoreOf st b > -1 := hsc b (List.mem_cons_self _ _)
  unfold specBalancedChoice
  unfold selectBalancedCore
  rw [if_pos hb]
  exact core_eq_find (scoreOf st) rest b

/-- Witness for C8 at the freshly initialised two-provider manager: the
claude provider has the strictly larger composite score and is chosen. -/
theorem C8_balanced_selection_witness :
    (["openai", "claude"] ≠ ([] : List String)) ∧
    (∀ p ∈ ["openai", "claude"],
      (dictGet? freshMgrState.metrics p).isSome = true) ∧
    (∀ p ∈ ["openai", "claude"], -1 < scoreOf freshMgrState p) ∧
    selectBalancedProvider freshMgrState ["openai", "claude"] =
      .ok (specBalancedChoice (scoreOf freshMgrState) ["openai", "claude"]) ∧
    specBalancedChoice (scoreOf freshMgrState) ["openai", "claude"] =
      some "claude" := by
  have h₁ : (["openai", "claude"] ≠ ([] : List String)) := by decide
  have h₂ : ∀ p ∈ ["openai", "claude"],
      (dictGet? freshMgrState.metrics p).isSome = true := by decide
  have ho : scoreOf freshMgrState "openai" = 0.84 := by
    norm_num [scoreOf, freshMgrState, dictGet?, balancedScore,
      initialOpenAIMetrics, max_def]
  have hc : scoreOf freshMgrState "claude" = 64 / 75 := by
    norm_num [scoreOf, freshMgrState, dictGet?, balancedScore,
      initialClaudeMetrics, max_def, (by decide : ¬("openai" = "claude"))]
  have h₃ : ∀ p ∈ ["openai", "claude"], -1 < scoreOf freshMgrState p := by
    intro p hp
    rcases List.mem_cons.mp hp with rfl | hp'
    · rw [ho]; norm_num
    · rcases List.mem_cons.mp hp' with rfl | hp''
      · rw [hc]; norm_num
      · simp at hp''
  have h₅ : specBalancedChoice (scoreOf freshMgrState) ["openai", "claude"] =
      some "claude" := by
    have foo : decide (scoreOf freshMgrState "claude" ≤
        scoreOf freshMgrState "openai") = false := by
      simp only [decide_eq_false_iff_not, not_le, ho, hc]
      norm_num
    have fco : decide (scoreOf freshMgrState "openai" ≤
        scoreOf freshMgrState "claude") = true := by
      simp only [decide_eq_true_eq, ho, hc]
      norm_num
    simp [specBalancedChoice, List.find?, List.all_cons, List.all_nil,
      foo, fco]
  exact ⟨h₁, h₂, h₃,
    C8_balanced_selection freshMgrState ["openai", "claude"] h₁ h₂ h₃, h₅⟩

end LogisticsAI
